import Mathlib

/-!
Verification of the Open3D Python I/O binding layer (`src/Python/io/io.cpp`)
against its design specification.

The binding file in the repository is pure glue: each `read_<kind>` /
`write_<kind>` Python function wraps a native `io::Read*` / `io::Write*`
routine. The binding signatures (parameter lists, defaults, return kinds,
parameter passing modes) are embedded below as a declarative table taken
directly from the source. The native I/O core (format registry, extension
sniffer, codecs, NaN/Inf filter stage, read/write facades) is not part of
the visible source and is modelled from the specification where a claim
needs it; every such definition is marked `Modelled from the spec:`.
-/

namespace Open3DIO

/-! ## Coordinates and geometric entities

Coordinates are modelled symbolically so that the NaN / infinity
classification the filter stage depends on is decidable: a coordinate is
NaN, +inf, -inf, or a finite value. -/

inductive Coord where
  | nan : Coord
  | posInf : Coord
  | negInf : Coord
  | val : Int → Coord
deriving DecidableEq, Repr

def Coord.isNaN : Coord → Bool
  | Coord.nan => true
  | _ => false

def Coord.isInf : Coord → Bool
  | Coord.posInf => true
  | Coord.negInf => true
  | _ => false

structure Vec3 where
  x : Coord
  y : Coord
  z : Coord
deriving DecidableEq, Repr

def Vec3.hasNaN (v : Vec3) : Bool := v.x.isNaN || v.y.isNaN || v.z.isNaN

def Vec3.hasInf (v : Vec3) : Bool := v.x.isInf || v.y.isInf || v.z.isInf

/-- A point cloud: ordered points with optional parallel normal and color
sequences (invariant: each parallel sequence has the same length as the
points, or is empty). Mirrors `geometry::PointCloud`. -/
structure PointCloud where
  points : List Vec3
  normals : List Vec3
  colors : List Vec3
deriving DecidableEq, Repr

/-- The default-constructed (empty) point cloud, as produced by
`geometry::PointCloud pcd;` in the binding lambdas. -/
def PointCloud.empty : PointCloud := ⟨[], [], []⟩

/-- A triangle mesh: vertices, triangle index triples, optional vertex
normals and colors. Mirrors `geometry::TriangleMesh`. -/
structure TriangleMesh where
  vertices : List Vec3
  triangles : List (Nat × Nat × Nat)
  vertex_normals : List Vec3
  vertex_colors : List Vec3
deriving DecidableEq, Repr

def TriangleMesh.empty : TriangleMesh := ⟨[], [], [], []⟩

/-- Write options recognized by the mesh / point-cloud / line-set / voxel
write operations (the `quality` option of `write_image` is passed
separately, as in the source). -/
structure WriteOptions where
  write_ascii : Bool
  compressed : Bool
  write_vertex_normals : Bool
  write_vertex_colors : Bool
deriving DecidableEq, Repr

/-- The option defaults of the binding layer: binary, uncompressed, with
vertex normals and colors. -/
def WriteOptions.dflt : WriteOptions := ⟨false, false, true, true⟩

/-! ## Serialized content

Modelled from the spec: a codec's `byteSink`/`byteSource` is a token
stream; structural parse failures are `Option.none`. -/

inductive Token where
  | tstr : String → Token
  | tco : Coord → Token
  | tnat : Nat → Token
deriving DecidableEq, Repr

def encodeVecs (vs : List Vec3) : List Token :=
  vs.flatMap (fun v => [Token.tco v.x, Token.tco v.y, Token.tco v.z])

def encodeTris (ts : List (Nat × Nat × Nat)) : List Token :=
  ts.flatMap (fun t => [Token.tnat t.1, Token.tnat t.2.1, Token.tnat t.2.2])

/-- Consume exactly `n` coordinate triples from the stream, returning them
with the rest of the stream; fails on malformed or truncated data. -/
def takeTriples : Nat → List Token → Option (List Vec3 × List Token)
  | 0, ts => some ([], ts)
  | n + 1, Token.tco a :: Token.tco b :: Token.tco c :: ts =>
    match takeTriples n ts with
    | some (vs, rest) => some (⟨a, b, c⟩ :: vs, rest)
    | none => none
  | _ + 1, _ => none

/-- Consume exactly `n` index triples from the stream. -/
def takeTriIdx : Nat → List Token → Option (List (Nat × Nat × Nat) × List Token)
  | 0, ts => some ([], ts)
  | n + 1, Token.tnat a :: Token.tnat b :: Token.tnat c :: ts =>
    match takeTriIdx n ts with
    | some (vs, rest) => some ((a, b, c) :: vs, rest)
    | none => none
  | _ + 1, _ => none

/-- Parse coordinate triples until the stream is exhausted. -/
def parseAllTriples : List Token → Option (List Vec3)
  | [] => some []
  | Token.tco a :: Token.tco b :: Token.tco c :: ts =>
    (parseAllTriples ts).map (fun vs => ⟨a, b, c⟩ :: vs)
  | _ => none

/-! ## Codecs

Modelled from the spec: one encode/decode strategy per (kind, format)
pair. The `xyz` point-cloud format carries geometry only (no normal or
color support: the documented attribute limitation of that format); the
`ply` formats carry all attributes, with explicit element counts in the
header. -/

structure PcCodec where
  enc : PointCloud → WriteOptions → List Token
  dec : List Token → Option PointCloud

structure MeshCodec where
  enc : TriangleMesh → WriteOptions → List Token
  dec : List Token → Option TriangleMesh

/-- Modelled from the spec: the `xyz` point-cloud codec. The format has no
normal/color blocks, so encoding drops them and decoding yields empty
parallel sequences. -/
def xyzEncode (pc : PointCloud) (_opts : WriteOptions) : List Token :=
  encodeVecs pc.points

def xyzDecode (ts : List Token) : Option PointCloud :=
  (parseAllTriples ts).map (fun vs => ⟨vs, [], []⟩)

def xyzCodec : PcCodec := ⟨xyzEncode, xyzDecode⟩

/-- Modelled from the spec: the `ply` point-cloud codec, carrying points,
normals and colors with explicit counts. -/
def plyPcEncode (pc : PointCloud) (_opts : WriteOptions) : List Token :=
  Token.tstr "ply" :: Token.tnat pc.points.length :: Token.tnat pc.normals.length ::
    Token.tnat pc.colors.length ::
    (encodeVecs pc.points ++ encodeVecs pc.normals ++ encodeVecs pc.colors)

def plyPcDecode : List Token → Option PointCloud
  | Token.tstr "ply" :: Token.tnat np :: Token.tnat nn :: Token.tnat nc :: ts =>
    match takeTriples np ts with
    | none => none
    | some (ps, ts1) =>
      match takeTriples nn ts1 with
      | none => none
      | some (ns, ts2) =>
        match takeTriples nc ts2 with
        | none => none
        | some (cs, ts3) => if ts3 = [] then some ⟨ps, ns, cs⟩ else none
  | _ => none

def plyPcCodec : PcCodec := ⟨plyPcEncode, plyPcDecode⟩

/-- Modelled from the spec: the `ply` triangle-mesh codec. The write-option
resolver omits the optional vertex-normal / vertex-color blocks entirely
when the corresponding flag is false, even if the entity carries that
data. -/
def plyMeshEncode (m : TriangleMesh) (opts : WriteOptions) : List Token :=
  let ns := if opts.write_vertex_normals then m.vertex_normals else []
  let cs := if opts.write_vertex_colors then m.vertex_colors else []
  Token.tstr "ply" :: Token.tnat m.vertices.length :: Token.tnat m.triangles.length ::
    Token.tnat ns.length :: Token.tnat cs.length ::
    (encodeVecs m.vertices ++ encodeTris m.triangles ++ encodeVecs ns ++ encodeVecs cs)

def plyMeshDecode : List Token → Option TriangleMesh
  | Token.tstr "ply" :: Token.tnat nv :: Token.tnat nt :: Token.tnat nn ::
      Token.tnat nc :: ts =>
    match takeTriples nv ts with
    | none => none
    | some (vs, ts1) =>
      match takeTriIdx nt ts1 with
      | none => none
      | some (fs, ts2) =>
        match takeTriples nn ts2 with
        | none => none
        | some (ns, ts3) =>
          match takeTriples nc ts3 with
          | none => none
          | some (cs, ts4) => if ts4 = [] then some ⟨vs, fs, ns, cs⟩ else none
  | _ => none

def plyMeshCodec : MeshCodec := ⟨plyMeshEncode, plyMeshDecode⟩

end Open3DIO

namespace Open3DIO

/-! ## Extension sniffer and format registry -/

/-- Lowercasing, character by character. -/
def lowerString (s : String) : String := String.mk (s.data.map Char.toLower)

/-- The characters after the last `.`, when there is one. -/
def afterLastDot : List Char → Option (List Char)
  | [] => none
  | c :: cs =>
    match afterLastDot cs with
    | some r => some r
    | none => if c = '.' then some cs else none

/-- Modelled from the spec: the suffix after the last `.` of a filename
(empty when there is no dot). -/
def extensionOf (filename : String) : String :=
  match afterLastDot filename.data with
  | some cs => String.mk cs
  | none => ""

/-- Modelled from the spec: the extension sniffer. Lowercases the suffix
after the last dot; if it is not among the kind's known tags, falls back
to the kind-specific default. Never opens the file. -/
def sniff (known : List String) (fallback : String) (filename : String) : String :=
  let e := lowerString (extensionOf filename)
  if known.contains e then e else fallback

/-- Modelled from the spec: registry lookup, case-insensitive on the tag
(registered tags are stored lowercase). -/
def lookupCodec {C : Type} (registry : List (String × C)) (tag : String) : Option C :=
  (registry.find? (fun p => p.fst = lowerString tag)).map Prod.snd

/-- Modelled from the spec: the point-cloud slice of the format registry. -/
def pointCloudRegistry : List (String × PcCodec) :=
  [("xyz", xyzCodec), ("ply", plyPcCodec)]

/-- Modelled from the spec: the triangle-mesh slice of the format registry. -/
def meshRegistry : List (String × MeshCodec) :=
  [("ply", plyMeshCodec)]

def pointCloudTags : List String := pointCloudRegistry.map Prod.fst

def meshTags : List String := meshRegistry.map Prod.fst

/-- Modelled from the spec: `"auto"` is resolved by the sniffer before
registry lookup; an explicit tag is lowercased and used as is. -/
def resolveTag (known : List String) (fallback : String) (filename tag : String) : String :=
  if tag = "auto" then sniff known fallback filename else lowerString tag

/-! ## File system model

A write produces a mapping from the filename to the encoded content;
reading a missing file is the `IOError` case. -/

abbrev FileSystem := List (String × List Token)

def fsRead (fs : FileSystem) (filename : String) : Option (List Token) :=
  (fs.find? (fun p => p.fst = filename)).map Prod.snd

def fsWrite (fs : FileSystem) (filename : String) (content : List Token) : FileSystem :=
  (filename, content) :: fs

/-! ## Validation / filter stage

Modelled from the spec: applied only to point-cloud reads, in the fixed
order NaN-removal then infinite-removal; entries at the removed points'
indices in the parallel normal/color sequences are removed too. -/

/-- Keep the entries of a parallel sequence `aux` whose index survives the
point predicate `keep`; a non-aligned (e.g. empty) parallel sequence is
left unchanged. -/
def keepAux (keep : Vec3 → Bool) (pts aux : List Vec3) : List Vec3 :=
  if aux.length = pts.length then
    ((pts.zip aux).filter (fun q => keep q.fst)).map (fun q => q.snd)
  else aux

/-- Remove every point satisfying `bad`, removing the same indices from the
normal and color sequences. -/
def removeIf (bad : Vec3 → Bool) (pc : PointCloud) : PointCloud :=
  ⟨pc.points.filter (fun p => !(bad p)),
   keepAux (fun p => !(bad p)) pc.points pc.normals,
   keepAux (fun p => !(bad p)) pc.points pc.colors⟩

def removeNaNPoints (pc : PointCloud) : PointCloud := removeIf Vec3.hasNaN pc

def removeInfinitePoints (pc : PointCloud) : PointCloud := removeIf Vec3.hasInf pc

/-- Modelled from the spec: the filter stage of a point-cloud read — NaN
removal first (if requested), then infinite removal (if requested). -/
def applyPointCloudFilter (remove_nan remove_infinite : Bool) (pc : PointCloud) : PointCloud :=
  let pc1 := if remove_nan then removeNaNPoints pc else pc
  if remove_infinite then removeInfinitePoints pc1 else pc1

/-! ## Unified I/O facades

Modelled from the spec: resolve format (auto → sniffer), look up the codec
(registry), decode, apply the filter stage (point clouds only); on any
lookup, IO or parse failure return a default-constructed entity and
`false`. These model the native `io::ReadPointCloud`,
`io::ReadTriangleMesh` and `io::WriteTriangleMesh` the binding calls. -/

/-- Modelled from the spec: the kind-generic read facade. `codec` is the
registry lookup result, `content` the IO result, `post` the kind's
post-decode stage (the filter for point clouds, the identity otherwise). -/
def facadeRead {E : Type} (dflt : E) (post : E → E)
    (codec : Option (List Token → Option E)) (content : Option (List Token)) : E × Bool :=
  match codec with
  | none => (dflt, false)
  | some dec =>
    match content with
    | none => (dflt, false)
    | some c =>
      match dec c with
      | none => (dflt, false)
      | some e => (post e, true)

/-- Modelled from the spec: `io::ReadPointCloud`. -/
def ReadPointCloud (fs : FileSystem) (filename tag : String)
    (remove_nan remove_infinite : Bool) : PointCloud × Bool :=
  facadeRead PointCloud.empty (applyPointCloudFilter remove_nan remove_infinite)
    ((lookupCodec pointCloudRegistry (resolveTag pointCloudTags "ply" filename tag)).map PcCodec.dec)
    (fsRead fs filename)

/-- Modelled from the spec: `io::ReadTriangleMesh` (no filter stage). -/
def ReadTriangleMesh (fs : FileSystem) (filename tag : String) : TriangleMesh × Bool :=
  facadeRead TriangleMesh.empty id
    ((lookupCodec meshRegistry (resolveTag meshTags "ply" filename tag)).map MeshCodec.dec)
    (fsRead fs filename)

/-- Modelled from the spec: `io::WriteTriangleMesh`. On an unknown format
tag it returns `false` and leaves the file system untouched. -/
def WriteTriangleMesh (fs : FileSystem) (filename tag : String)
    (m : TriangleMesh) (opts : WriteOptions) : Bool × FileSystem :=
  match lookupCodec meshRegistry (resolveTag meshTags "ply" filename tag) with
  | none => (false, fs)
  | some c => (true, fsWrite fs filename (c.enc m opts))

end Open3DIO

namespace Open3DIO

/-! ## The binding layer of `src/Python/io/io.cpp`

Each `m_io.def(...)` call in `pybind_io` is recorded as a `Binding`:
its Python name, its parameter list with the declared defaults, what its
lambda returns (the populated entity, the underlying routine's boolean
flag, or nothing when the lambda has no return statement), and how the
entity argument of a write is passed. -/

inductive PDefault where
  | dStr : String → PDefault
  | dBool : Bool → PDefault
  | dInt : Int → PDefault
deriving DecidableEq, Repr

structure Param where
  pname : String
  defv : Option PDefault
deriving DecidableEq, Repr

/-- A required parameter (no default). -/
def pArg (n : String) : Param := ⟨n, none⟩

def pStr (n s : String) : Param := ⟨n, some (PDefault.dStr s)⟩

def pBool (n : String) (b : Bool) : Param := ⟨n, some (PDefault.dBool b)⟩

def pInt (n : String) (i : Int) : Param := ⟨n, some (PDefault.dInt i)⟩

inductive RetKind where
  | entity : RetKind
  | boolFlag : RetKind
  | nothing : RetKind
deriving DecidableEq, Repr

inductive PassMode where
  | constRef : PassMode
  | mutRef : PassMode
  | byValue : PassMode
deriving DecidableEq, Repr

structure Binding where
  bname : String
  params : List Param
  ret : RetKind
  entityPass : Option PassMode
deriving DecidableEq, Repr

/-- `read_image` (io.cpp:93): `[](filename) { Image image; ReadImage(filename, image); return image; }`. -/
def readImageB : Binding := ⟨"read_image", [pArg "filename"], RetKind.entity, none⟩

/-- `write_image` (io.cpp:103): returns `io::WriteImage(...)`; entity by const reference. -/
def writeImageB : Binding :=
  ⟨"write_image", [pArg "filename", pArg "image", pInt "quality" 90],
   RetKind.boolFlag, some PassMode.constRef⟩

/-- `read_line_set` (io.cpp:114). -/
def readLineSetB : Binding :=
  ⟨"read_line_set", [pArg "filename", pStr "format" "auto"], RetKind.entity, none⟩

/-- `write_line_set` (io.cpp:125). -/
def writeLineSetB : Binding :=
  ⟨"write_line_set",
   [pArg "filename", pArg "line_set", pBool "write_ascii" false, pBool "compressed" false],
   RetKind.boolFlag, some PassMode.constRef⟩

/-- `read_point_cloud` (io.cpp:137). -/
def readPointCloudB : Binding :=
  ⟨"read_point_cloud",
   [pArg "filename", pStr "format" "auto", pBool "remove_nan_points" true,
    pBool "remove_infinite_points" true],
   RetKind.entity, none⟩

/-- `write_point_cloud` (io.cpp:151). -/
def writePointCloudB : Binding :=
  ⟨"write_point_cloud",
   [pArg "filename", pArg "pointcloud", pBool "write_ascii" false, pBool "compressed" false],
   RetKind.boolFlag, some PassMode.constRef⟩

/-- `read_triangle_mesh` (io.cpp:164): takes only `filename`. -/
def readTriangleMeshB : Binding :=
  ⟨"read_triangle_mesh", [pArg "filename"], RetKind.entity, none⟩

/-- `write_triangle_mesh` (io.cpp:174). -/
def writeTriangleMeshB : Binding :=
  ⟨"write_triangle_mesh",
   [pArg "filename", pArg "mesh", pBool "write_ascii" false, pBool "compressed" false,
    pBool "write_vertex_normals" true, pBool "write_vertex_colors" true],
   RetKind.boolFlag, some PassMode.constRef⟩

/-- `read_voxel_grid` (io.cpp:189). -/
def readVoxelGridB : Binding :=
  ⟨"read_voxel_grid", [pArg "filename", pStr "format" "auto"], RetKind.entity, none⟩

/-- `write_voxel_grid` (io.cpp:200). -/
def writeVoxelGridB : Binding :=
  ⟨"write_voxel_grid",
   [pArg "filename", pArg "voxel_grid", pBool "write_ascii" false, pBool "compressed" false],
   RetKind.boolFlag, some PassMode.constRef⟩

/-- `read_pinhole_camera_intrinsic` (io.cpp:213). -/
def readIntrinsicB : Binding :=
  ⟨"read_pinhole_camera_intrinsic", [pArg "filename"], RetKind.entity, none⟩

/-- `write_pinhole_camera_intrinsic` (io.cpp:223). -/
def writeIntrinsicB : Binding :=
  ⟨"write_pinhole_camera_intrinsic", [pArg "filename", pArg "intrinsic"],
   RetKind.boolFlag, some PassMode.constRef⟩

/-- `read_pinhole_camera_parameters` (io.cpp:233). -/
def readParametersB : Binding :=
  ⟨"read_pinhole_camera_parameters", [pArg "filename"], RetKind.entity, none⟩

/-- `write_pinhole_camera_parameters` (io.cpp:244). -/
def writeParametersB : Binding :=
  ⟨"write_pinhole_camera_parameters", [pArg "filename", pArg "parameters"],
   RetKind.boolFlag, some PassMode.constRef⟩

/-- `read_pinhole_camera_trajectory` (io.cpp:254). -/
def readTrajectoryB : Binding :=
  ⟨"read_pinhole_camera_trajectory", [pArg "filename"], RetKind.entity, none⟩

/-- `write_pinhole_camera_trajectory` (io.cpp:265). -/
def writeTrajectoryB : Binding :=
  ⟨"write_pinhole_camera_trajectory", [pArg "filename", pArg "trajectory"],
   RetKind.boolFlag, some PassMode.constRef⟩

/-- `read_feature` (io.cpp:276). -/
def readFeatureB : Binding :=
  ⟨"read_feature", [pArg "filename"], RetKind.entity, none⟩

/-- `write_feature` (io.cpp:286). -/
def writeFeatureB : Binding :=
  ⟨"write_feature", [pArg "filename", pArg "feature"],
   RetKind.boolFlag, some PassMode.constRef⟩

/-- `read_pose_graph` (io.cpp:295). -/
def readPoseGraphB : Binding :=
  ⟨"read_pose_graph", [pArg "filename"], RetKind.entity, none⟩

/-- `write_pose_graph` (io.cpp:305): the lambda body is
`{ io::WritePoseGraph(filename, pose_graph); }` — no `return`, so the
Python function yields nothing; the entity is taken by value
(`const registration::PoseGraph pose_graph`). -/
def writePoseGraphB : Binding :=
  ⟨"write_pose_graph", [pArg "filename", pArg "pose_graph"],
   RetKind.nothing, some PassMode.byValue⟩

/-- All twenty bindings registered by `pybind_io`, in source order. -/
def ioBindings : List Binding :=
  [readImageB, writeImageB, readLineSetB, writeLineSetB, readPointCloudB,
   writePointCloudB, readTriangleMeshB, writeTriangleMeshB, readVoxelGridB,
   writeVoxelGridB, readIntrinsicB, writeIntrinsicB, readParametersB,
   writeParametersB, readTrajectoryB, writeTrajectoryB, readFeatureB,
   writeFeatureB, readPoseGraphB, writePoseGraphB]

/-- The ten `read_<kind>` bindings. -/
def readBindings : List Binding :=
  [readImageB, readLineSetB, readPointCloudB, readTriangleMeshB, readVoxelGridB,
   readIntrinsicB, readParametersB, readTrajectoryB, readFeatureB, readPoseGraphB]

/-- The ten `write_<kind>` bindings. -/
def writeBindings : List Binding :=
  [writeImageB, writeLineSetB, writePointCloudB, writeTriangleMeshB, writeVoxelGridB,
   writeIntrinsicB, writeParametersB, writeTrajectoryB, writeFeatureB, writePoseGraphB]

/-- Every (binding, parameter, default) triple of the binding layer. -/
def defaultedParams : List (String × String × PDefault) :=
  ioBindings.flatMap (fun b =>
    b.params.filterMap (fun p => p.defv.map (fun d => (b.bname, p.pname, d))))

/-! ## Binding semantics

The shape every read lambda shares: default-construct the entity, call the
underlying reader (which populates it and reports success), ignore the
flag, return the entity. The shape every write lambda (except
`write_pose_graph`) shares: forward to the underlying writer and return
its flag, the entity being read-only for the call. -/

/-- The read-lambda shape: `E e; backend(filename, e); return e;`. -/
def readBindingSem {E : Type} (dflt : E) (backend : String → E → E × Bool)
    (filename : String) : E :=
  (backend filename dflt).fst

/-- The write-lambda shape, on a state (entity, file system): the entity
is an input the backend cannot replace (const reference / by-value copy),
so the post-state carries it unchanged. -/
def writeBindingStep {E : Type} (backend : String → E → FileSystem → Bool × FileSystem)
    (filename : String) (e : E) (fs : FileSystem) : Bool × E × FileSystem :=
  ((backend filename e fs).fst, e, (backend filename e fs).snd)

/-- The Python-level `read_point_cloud` over the modelled native facade:
constructs an empty cloud, lets `io::ReadPointCloud` populate it,
discards the success flag (io.cpp:137). -/
def read_point_cloud (fs : FileSystem) (filename : String) (format : String)
    (remove_nan_points remove_infinite_points : Bool) : PointCloud :=
  (ReadPointCloud fs filename format remove_nan_points remove_infinite_points).fst

/-- The Python-level `read_triangle_mesh` over the modelled native facade
(io.cpp:164). -/
def read_triangle_mesh (fs : FileSystem) (filename : String) : TriangleMesh :=
  (ReadTriangleMesh fs filename "auto").fst

end Open3DIO

namespace Open3DIO

/-! ## Sample data for the concrete filter scenario -/

def nanPoint : Vec3 := ⟨Coord.nan, Coord.val 0, Coord.val 0⟩

def infPoint : Vec3 := ⟨Coord.posInf, Coord.val 1, Coord.val 1⟩

def finPoint : Vec3 := ⟨Coord.val 2, Coord.val 2, Coord.val 2⟩

def normA : Vec3 := ⟨Coord.val 1, Coord.val 0, Coord.val 0⟩

def normB : Vec3 := ⟨Coord.val 0, Coord.val 1, Coord.val 0⟩

def normC : Vec3 := ⟨Coord.val 0, Coord.val 0, Coord.val 1⟩

def colorA : Vec3 := ⟨Coord.val 255, Coord.val 0, Coord.val 0⟩

def colorB : Vec3 := ⟨Coord.val 0, Coord.val 255, Coord.val 0⟩

def colorC : Vec3 := ⟨Coord.val 0, Coord.val 0, Coord.val 255⟩

/-- A cloud with one NaN point, one infinite point and one finite point,
with aligned normals and colors. -/
def samplePc : PointCloud :=
  ⟨[nanPoint, infPoint, finPoint], [normA, normB, normC], [colorA, colorB, colorC]⟩

/-- A mesh carrying one vertex color, for the write-option suppression
scenario. -/
def sampleMesh : TriangleMesh := ⟨[finPoint], [(0, 0, 0)], [normA], [colorA]⟩

/-! ## Codec round-trip lemmas -/

theorem encodeVecs_nil : encodeVecs [] = [] := rfl

theorem encodeVecs_cons (v : Vec3) (vs : List Vec3) :
    encodeVecs (v :: vs) =
      Token.tco v.x :: Token.tco v.y :: Token.tco v.z :: encodeVecs vs := rfl

theorem encodeTris_cons (t : Nat × Nat × Nat) (ts : List (Nat × Nat × Nat)) :
    encodeTris (t :: ts) =
      Token.tnat t.1 :: Token.tnat t.2.1 :: Token.tnat t.2.2 :: encodeTris ts := rfl

theorem takeTriples_encode (vs : List Vec3) (rest : List Token) :
    takeTriples vs.length (encodeVecs vs ++ rest) = some (vs, rest) := by
  induction vs with
  | nil => rfl
  | cons v vs ih =>
    show takeTriples (vs.length + 1)
        (Token.tco v.x :: Token.tco v.y :: Token.tco v.z :: (encodeVecs vs ++ rest)) =
      some (v :: vs, rest)
    rw [takeTriples, ih]

theorem takeTriples_encode_all (vs : List Vec3) :
    takeTriples vs.length (encodeVecs vs) = some (vs, []) := by
  have h := takeTriples_encode vs []
  rwa [List.append_nil] at h

theorem takeTriIdx_encode (ts : List (Nat × Nat × Nat)) (rest : List Token) :
    takeTriIdx ts.length (encodeTris ts ++ rest) = some (ts, rest) := by
  induction ts with
  | nil => rfl
  | cons t ts ih =>
    show takeTriIdx (ts.length + 1)
        (Token.tnat t.1 :: Token.tnat t.2.1 :: Token.tnat t.2.2 :: (encodeTris ts ++ rest)) =
      some (t :: ts, rest)
    rw [takeTriIdx, ih]

theorem takeTriIdx_encode_all (ts : List (Nat × Nat × Nat)) :
    takeTriIdx ts.length (encodeTris ts) = some (ts, []) := by
  have h := takeTriIdx_encode ts []
  rwa [List.append_nil] at h

theorem parseAllTriples_encode (vs : List Vec3) :
    parseAllTriples (encodeVecs vs) = some vs := by
  induction vs with
  | nil => rfl
  | cons v vs ih =>
    show parseAllTriples
        (Token.tco v.x :: Token.tco v.y :: Token.tco v.z :: encodeVecs vs) = some (v :: vs)
    rw [parseAllTriples, ih]
    rfl

theorem xyzDecode_encode (pc : PointCloud) (opts : WriteOptions) :
    xyzDecode (xyzEncode pc opts) = some ⟨pc.points, [], []⟩ := by
  simp [xyzEncode, xyzDecode, parseAllTriples_encode]

theorem plyPcDecode_encode (pc : PointCloud) (opts : WriteOptions) :
    plyPcDecode (plyPcEncode pc opts) = some pc := by
  obtain ⟨ps, ns, cs⟩ := pc
  simp [plyPcEncode, plyPcDecode, List.append_assoc, takeTriples_encode,
    takeTriples_encode_all]

theorem plyMeshDecode_encode (m : TriangleMesh) (opts : WriteOptions) :
    plyMeshDecode (plyMeshEncode m opts) =
      some ⟨m.vertices, m.triangles,
            if opts.write_vertex_normals then m.vertex_normals else [],
            if opts.write_vertex_colors then m.vertex_colors else []⟩ := by
  obtain ⟨vs, ts, ns, cs⟩ := m
  obtain ⟨wa, co, wn, wc⟩ := opts
  cases wn <;> cases wc <;>
    simp only [plyMeshEncode, plyMeshDecode, List.append_assoc, List.append_nil,
      List.nil_append, Bool.ite_eq_false_distrib, if_true, if_false,
      takeTriples_encode, takeTriIdx_encode, takeTriples_encode_all,
      takeTriIdx_encode_all, takeTriples, encodeVecs_nil, List.length_nil,
      ite_true, ite_false, Bool.false_eq_true, Bool.true_eq_false]

end Open3DIO

namespace Open3DIO

/-! ## Filter-stage alignment lemmas -/

theorem zip_map_fst_map_snd {A B : Type} (l : List (A × B)) :
    (l.map (fun q => q.fst)).zip (l.map (fun q => q.snd)) = l := by
  induction l with
  | nil => rfl
  | cons q l ih => simp [ih]

theorem filter_zip_map_fst (keep : Vec3 → Bool) (pts : List Vec3) :
    ∀ aux : List Vec3, aux.length = pts.length →
      ((pts.zip aux).filter (fun q => keep q.fst)).map (fun q => q.fst) =
        pts.filter keep := by
  induction pts with
  | nil => intro aux _; rfl
  | cons p pts ih =>
    intro aux h
    cases aux with
    | nil => simp at h
    | cons a aux =>
      simp only [List.length_cons, Nat.add_right_cancel_iff] at h
      simp only [List.zip_cons_cons, List.filter_cons]
      cases hk : keep p <;> simp [hk, ih aux h]

/-- Alignment: the surviving (point, auxiliary) pairs after filtering are
exactly the pairs of surviving points. -/
theorem zip_keepAux (keep : Vec3 → Bool) (pts aux : List Vec3)
    (h : aux.length = pts.length) :
    (pts.filter keep).zip (keepAux keep pts aux) =
      (pts.zip aux).filter (fun q => keep q.fst) := by
  rw [keepAux, if_pos h, ← filter_zip_map_fst keep pts aux h]
  exact zip_map_fst_map_snd _

theorem length_keepAux (keep : Vec3 → Bool) (pts aux : List Vec3)
    (h : aux.length = pts.length) :
    (keepAux keep pts aux).length = (pts.filter keep).length := by
  rw [keepAux, if_pos h, ← filter_zip_map_fst keep pts aux h]
  simp

end Open3DIO

namespace Open3DIO

/-- A helper: for triangle meshes the sniffer always resolves to "ply",
the kind's only registered tag and its fallback. -/
theorem sniff_mesh (filename : String) : sniff meshTags "ply" filename = "ply" := by
  show (if List.contains ["ply"] (lowerString (extensionOf filename))
      then lowerString (extensionOf filename) else "ply") = "ply"
  rcases h : List.contains ["ply"] (lowerString (extensionOf filename)) with _ | _
  · rw [if_neg (by simp [h])]
  · have he : lowerString (extensionOf filename) = "ply" := by simpa using h
    rw [if_pos (by simp [h]), he]

/-- C1: a failed read — unsupported format (no codec), missing file (no
content), or parse error (decoder returns none) — yields the
default-constructed empty entity together with a false success flag at the
read facade, for every kind; in particular `read_point_cloud` on a
nonexistent path yields an empty point cloud and false. (The facade is a
total function, so no exception escapes this boundary.) -/
theorem C1_failed_read_empty_and_false {E : Type} (dflt : E) (post : E → E)
    (codec : Option (List Token → Option E)) (content : Option (List Token))
    (h : codec = none ∨ content = none ∨
      ∃ dec c, codec = some dec ∧ content = some c ∧ dec c = none) :
    facadeRead dflt post codec content = (dflt, false) ∧
    ReadPointCloud [] "/nonexistent/path.ply" "auto" true true =
      (PointCloud.empty, false) := by
  refine ⟨?_, by decide⟩
  rcases h with h | h | ⟨dec, c, h1, h2, h3⟩
  · simp [facadeRead, h]
  · cases codec <;> simp [facadeRead, h]
  · subst h1; subst h2; simp [facadeRead, h3]

/-- C1 witness: concrete failing reads (registry miss, and the nonexistent
`.ply` path) produce the empty entity and false. -/
theorem C1_witness :
    facadeRead PointCloud.empty id (none : Option (List Token → Option PointCloud))
      none = (PointCloud.empty, false) ∧
    ReadPointCloud [] "/nonexistent/path.ply" "auto" true true =
      (PointCloud.empty, false) :=
  C1_failed_read_empty_and_false PointCloud.empty id none none (Or.inl rfl)

/-- C2: for every supported (kind, format) codec, decoding the result of
encoding a valid entity reproduces it, up to the format's documented
attribute limitations: the `ply` codecs reproduce the entity exactly, and
the `xyz` point-cloud codec (which has no normal/color support) preserves
the geometry and drops the parallel attributes. -/
theorem C2_roundtrip (pc : PointCloud) (m : TriangleMesh) (opts : WriteOptions) :
    plyPcCodec.dec (plyPcCodec.enc pc opts) = some pc ∧
    xyzCodec.dec (xyzCodec.enc pc opts) = some ⟨pc.points, [], []⟩ ∧
    plyMeshCodec.dec (plyMeshCodec.enc m WriteOptions.dflt) = some m := by
  refine ⟨plyPcDecode_encode pc opts, xyzDecode_encode pc opts, ?_⟩
  simpa [WriteOptions.dflt] using plyMeshDecode_encode m WriteOptions.dflt

/-- C3 (code divergence): nine of the ten write bindings return the
underlying boolean flag, but the `write_pose_graph` lambda calls
`io::WritePoseGraph` without a return statement, so that one write
operation yields no success flag to its caller. -/
theorem C3_write_pose_graph_missing_flag :
    writePoseGraphB.ret = RetKind.nothing ∧
    (writeBindings.filter (fun b => b.ret == RetKind.boolFlag)).length = 9 ∧
    (writeBindings.filter (fun b => !(b.ret == RetKind.boolFlag))).map Binding.bname =
      ["write_pose_graph"] := by decide

/-- C4 counterexample: `read_image` has no `format` parameter at all — its
only parameter is `filename` — so not every read operation accepts a
format argument. -/
theorem C4_counterexample_read_image_lacks_format :
    readImageB ∈ readBindings ∧
    readImageB.params.map Param.pname = ["filename"] := by decide

/-- C4 (amended): exactly three read bindings — `read_line_set`,
`read_point_cloud` and `read_voxel_grid` — accept a `format` argument,
each defaulting to "auto"; the other seven read bindings take only
`filename`. -/
theorem C4_amended_format_on_three_reads :
    (readBindings.filter (fun b => b.params.any (fun p => p.pname == "format"))).map
      Binding.bname = ["read_line_set", "read_point_cloud", "read_voxel_grid"] ∧
    defaultedParams.filter (fun t => t.2.1 == "format") =
      [("read_line_set", "format", PDefault.dStr "auto"),
       ("read_point_cloud", "format", PDefault.dStr "auto"),
       ("read_voxel_grid", "format", PDefault.dStr "auto")] ∧
    (readBindings.filter (fun b => b.params.all (fun p => !(p.pname == "format")))).all
      (fun b => b.params == [pArg "filename"]) = true := by decide

/-- C5: the non-`format` option defaults of the binding layer are exactly:
quality 90 (image write only), write_ascii false and compressed false (the
four geometry writes), remove_nan_points and remove_infinite_points true
(point-cloud read only), write_vertex_normals and write_vertex_colors true
(mesh write only). -/
theorem C5_option_defaults :
    defaultedParams.filter (fun t => !(t.2.1 == "format")) =
      [("write_image", "quality", PDefault.dInt 90),
       ("write_line_set", "write_ascii", PDefault.dBool false),
       ("write_line_set", "compressed", PDefault.dBool false),
       ("read_point_cloud", "remove_nan_points", PDefault.dBool true),
       ("read_point_cloud", "remove_infinite_points", PDefault.dBool true),
       ("write_point_cloud", "write_ascii", PDefault.dBool false),
       ("write_point_cloud", "compressed", PDefault.dBool false),
       ("write_triangle_mesh", "write_ascii", PDefault.dBool false),
       ("write_triangle_mesh", "compressed", PDefault.dBool false),
       ("write_triangle_mesh", "write_vertex_normals", PDefault.dBool true),
       ("write_triangle_mesh", "write_vertex_colors", PDefault.dBool true),
       ("write_voxel_grid", "write_ascii", PDefault.dBool false),
       ("write_voxel_grid", "compressed", PDefault.dBool false)] := by decide

/-- C6: the NaN/Inf filter runs in the fixed order NaN-removal then
infinite-removal; removing a point removes the same index from aligned
normal and color sequences, so surviving points keep their own normals and
colors; the filter options exist only on `read_point_cloud`; and on the
concrete cloud with one NaN point and one infinite point, both are removed
together with their normal/color entries. -/
theorem C6_filter_order_and_alignment (bad : Vec3 → Bool) (pc : PointCloud)
    (hn : pc.normals.length = pc.points.length)
    (hc : pc.colors.length = pc.points.length) :
    (∀ q, applyPointCloudFilter true true q =
      removeInfinitePoints (removeNaNPoints q)) ∧
    (removeIf bad pc).points.zip ((removeIf bad pc).normals) =
      (pc.points.zip pc.normals).filter (fun q => !(bad q.fst)) ∧
    (removeIf bad pc).points.zip ((removeIf bad pc).colors) =
      (pc.points.zip pc.colors).filter (fun q => !(bad q.fst)) ∧
    (removeIf bad pc).normals.length = (removeIf bad pc).points.length ∧
    (removeIf bad pc).colors.length = (removeIf bad pc).points.length ∧
    (ioBindings.filter (fun b => b.params.any (fun p =>
        p.pname == "remove_nan_points" || p.pname == "remove_infinite_points"))).map
      Binding.bname = ["read_point_cloud"] ∧
    applyPointCloudFilter true true samplePc = ⟨[finPoint], [normC], [colorC]⟩ :=
  ⟨fun _ => rfl,
   zip_keepAux _ pc.points pc.normals hn,
   zip_keepAux _ pc.points pc.colors hc,
   length_keepAux (fun p => !(bad p)) pc.points pc.normals hn,
   length_keepAux (fun p => !(bad p)) pc.points pc.colors hc,
   by decide, by decide⟩

/-- C6 witness: alignment at the concrete sample cloud for the NaN
predicate. -/
theorem C6_witness :
    (removeIf Vec3.hasNaN samplePc).points.zip ((removeIf Vec3.hasNaN samplePc).normals) =
      (samplePc.points.zip samplePc.normals).filter (fun q => !(Vec3.hasNaN q.fst)) :=
  (C6_filter_order_and_alignment Vec3.hasNaN samplePc (by decide) (by decide)).2.1

/-- C7: writing a triangle mesh with an explicitly given format tag that
names no registered codec returns false and leaves the file system — in
particular the target file — exactly as it was. -/
theorem C7_unknown_format_write_fails (fs : FileSystem) (filename tag : String)
    (m : TriangleMesh) (opts : WriteOptions) (hA : tag ≠ "auto")
    (hU : lookupCodec meshRegistry (lowerString tag) = none) :
    WriteTriangleMesh fs filename tag m opts = (false, fs) := by
  unfold WriteTriangleMesh resolveTag
  rw [if_neg hA, hU]

/-- C7 witness: the spec's own scenario, an explicit unknown tag on an
empty file system. -/
theorem C7_witness :
    WriteTriangleMesh [] "x.unknownext" "unknownext" TriangleMesh.empty
      WriteOptions.dflt = (false, []) :=
  C7_unknown_format_write_fails [] "x.unknownext" "unknownext" TriangleMesh.empty
    WriteOptions.dflt (by decide) rfl

end Open3DIO

namespace Open3DIO

/-- C8: writing a mesh that carries vertex colors with
`write_vertex_colors = false` and reading the written file back yields a
mesh whose vertex-color sequence has length zero, while the geometry is
preserved: the false flag suppresses the color block entirely. -/
theorem C8_color_suppression (fs : FileSystem) (filename : String)
    (m : TriangleMesh) (opts : WriteOptions)
    (hcarries : m.vertex_colors ≠ [])
    (hopt : opts.write_vertex_colors = false) :
    (WriteTriangleMesh fs filename "ply" m opts).fst = true ∧
    (read_triangle_mesh (WriteTriangleMesh fs filename "ply" m opts).snd
      filename).vertex_colors = [] ∧
    (read_triangle_mesh (WriteTriangleMesh fs filename "ply" m opts).snd
      filename).vertices = m.vertices := by
  refine ⟨rfl, ?_, ?_⟩ <;>
  · rw [show WriteTriangleMesh fs filename "ply" m opts =
        (true, (filename, plyMeshEncode m opts) :: fs) from rfl]
    unfold read_triangle_mesh ReadTriangleMesh
    rw [show resolveTag meshTags "ply" filename "auto" = "ply" from by
        rw [resolveTag, if_pos rfl, sniff_mesh]]
    rw [show lookupCodec meshRegistry "ply" = some plyMeshCodec from rfl]
    rw [show fsRead ((filename, plyMeshEncode m opts) :: fs) filename =
        some (plyMeshEncode m opts) from by simp [fsRead]]
    simp [facadeRead, plyMeshCodec, plyMeshDecode_encode, hopt]

/-- C8 witness: the concrete colored sample mesh, written with colors
suppressed and read back, has an empty color sequence. -/
theorem C8_witness :
    (read_triangle_mesh
      (WriteTriangleMesh [] "m.ply" "ply" sampleMesh ⟨false, false, true, false⟩).snd
      "m.ply").vertex_colors = [] :=
  (C8_color_suppression [] "m.ply" sampleMesh ⟨false, false, true, false⟩
    (by decide) rfl).2.1

/-- C9: no write operation modifies the entity it is given: on the
(entity, file system) state, every write step leaves the entity component
unchanged, and in the source every write binding receives the entity
read-only — as a const reference, or by value for `write_pose_graph`,
never as a mutable reference. -/
theorem C9_write_entity_unchanged {E : Type}
    (backend : String → E → FileSystem → Bool × FileSystem)
    (filename : String) (e : E) (fs : FileSystem) :
    (writeBindingStep backend filename e fs).snd.fst = e ∧
    (∀ b ∈ writeBindings, b.entityPass ≠ some PassMode.mutRef) ∧
    writePoseGraphB.entityPass = some PassMode.byValue ∧
    (∀ b ∈ writeBindings, b.bname ≠ "write_pose_graph" →
      b.entityPass = some PassMode.constRef) :=
  ⟨rfl, by decide, rfl, by decide⟩

/-- C9 witness: a concrete write step leaves the sample cloud unchanged. -/
theorem C9_witness :
    (writeBindingStep (fun _ (_ : PointCloud) fs => (true, fs)) "f.ply"
      samplePc []).snd.fst = samplePc :=
  (C9_write_entity_unchanged (fun _ _ fs => (true, fs)) "f.ply" samplePc []).1

/-- C10: every read binding returns the entity unconditionally and
discards the reader's success flag: all ten read bindings have
entity-return shape, two backends that populate the entity identically but
report different flags are indistinguishable through the binding, and
`read_point_cloud` on a missing file returns the same empty cloud as on an
existing file that decodes to an empty cloud. -/
theorem C10_reads_return_entity_unconditionally {E : Type} (dflt : E)
    (b1 b2 : String → E → E × Bool) (filename : String)
    (h : (b1 filename dflt).fst = (b2 filename dflt).fst) :
    readBindingSem dflt b1 filename = readBindingSem dflt b2 filename ∧
    (∀ b ∈ readBindings, b.ret = RetKind.entity) ∧
    read_point_cloud [] "missing.xyz" "auto" true true = PointCloud.empty ∧
    read_point_cloud [("empty.xyz", [])] "empty.xyz" "auto" true true =
      PointCloud.empty :=
  ⟨h, by decide, by decide, by decide⟩

/-- C10 witness: two backends that differ only in the success flag give
the same binding result. -/
theorem C10_witness :
    readBindingSem PointCloud.empty (fun _ e => (e, true)) "a.ply" =
      readBindingSem PointCloud.empty (fun _ e => (e, false)) "a.ply" :=
  (C10_reads_return_entity_unconditionally PointCloud.empty
    (fun _ e => (e, true)) (fun _ e => (e, false)) "a.ply" rfl).1

end Open3DIO
